import Mathlib

/-!
Shallow embedding of the salacious-code-reviews entrypoint (src/main.py).

The program is sequential orchestration: read environment variables, fetch a
pull request's changed files, send each diff to a completion API (with one
retry), and submit the accumulated comments as a single review.

Modelling conventions:
- Machine-level effects (network, logging) are abstracted: the completion API
  is an oracle indexed by the global call counter and the prompt string, so
  that "invoked exactly twice" is expressible; logging is dropped.
- Python exceptions that escape a function are modelled with Except:
  SystemExit(1), IndexError and ValueError become PyError values.
- Python dict results of json.loads are modelled at the granularity at which
  the caller inspects them: the only observation made by do_code_review is
  whether the key "comments" is present and, if so, its value.
- The per-file comment batches are serialized with json.dumps and later
  deserialized with ast.literal_eval; on lists of {path, body, position}
  records this round trip is the identity, so batches are carried as
  List Comment directly.
-/

set_option autoImplicit false

namespace Salacious

/-- A review comment record as produced by the completion API:
{path, body, position}. -/
structure Comment where
  path : String
  body : String
  position : Nat
deriving DecidableEq

/-- A changed file of the pull request: filename plus optional diff patch
(item.filename, item.patch; patch is None for e.g. binary files). -/
structure ChangedFile where
  filename : String
  patch : Option String
deriving DecidableEq

/-- The dict returned by submit_to_gpt, at the granularity the caller uses:
empty ({}; returned on API error or malformed JSON), a dict carrying a
"comments" key, or some other JSON value without a "comments" key. -/
inductive GptDict where
  | empty
  | withComments (cs : List Comment)
  | otherJson
deriving DecidableEq

/-- The check performed by do_code_review on the dict returned by
submit_to_gpt: if "comments" in diff_comment then diff_comment["comments"]. -/
def getComments : GptDict → Option (List Comment)
  | .withComments cs => some cs
  | _ => none

/-- Outcome of the openai.ChatCompletion.create call inside submit_to_gpt:
either openai.APIError is raised, or a textual completion content comes back. -/
inductive CompletionResult where
  | apiError
  | content (s : String)

/-- Embedding of submit_to_gpt (src/main.py lines 135-155).

json_loads models json.loads on the completion content: none when the text is
not valid JSON (json.loads raises), some d otherwise.

On apiError: the exception handler only logs; the local variable completion is
then unbound, so completion.choices raises NameError, which the bare
except-Exception handler swallows, leaving review = {}. On content s: review
is json.loads(s) when that succeeds and {} when it raises. In every modelled
case the function returns normally. -/
def submit_to_gpt (json_loads : String → Option GptDict) :
    CompletionResult → GptDict
  | .apiError => .empty
  | .content s => (json_loads s).getD .empty

/-- Classification of a changed file by the filtering branches of the loop in
do_code_review (src/main.py lines 66-75): patch absent, patch too large, or
reviewable. (The guard not type(item) == "str" compares a type object with a
string literal, so it is always true and the loop body is always entered.) -/
inductive FilterResult where
  | Reviewable
  | SkippedEmpty
  | SkippedTooLarge
deriving DecidableEq

/-- The filter decision of the loop body, with MAX_TOKENS as parameter mt:
item.patch is None → SkippedEmpty; len(item.patch) > MAX_TOKENS →
SkippedTooLarge; otherwise Reviewable. -/
def diffFilter (mt : Nat) (f : ChangedFile) : FilterResult :=
  match f.patch with
  | none => .SkippedEmpty
  | some p => if p.length > mt then .SkippedTooLarge else .Reviewable

/-- Per-file outcome of the loop body of do_code_review. skippedEmpty files
are merely logged; skippedTooLarge and failedAfterRetry files are appended to
skipped_files; accepted files contribute their comments batch. -/
inductive ReviewResult where
  | accepted (cs : List Comment)
  | skippedEmpty
  | skippedTooLarge
  | failedAfterRetry
deriving DecidableEq

/-- The user prompt built for a file: f"filename: {item.filename} ** {item.patch}". -/
def gptPrompt (filename patch : String) : String :=
  "filename: " ++ filename ++ " ** " ++ patch

/-- One iteration of the loop in do_code_review (src/main.py lines 64-98),
for the file f, where n is the number of submit_to_gpt calls already made in
this run and gpt is the oracle giving the dict returned by the k-th
submit_to_gpt call on a given prompt. Returns the outcome for f together with
the number of submit_to_gpt calls made for f:
- patch is None: warning logged only; no call.
- len(patch) > MAX_TOKENS: skipped; no call.
- otherwise one call; if its dict has "comments" the batch is accepted,
  else exactly one retry with the same prompt; if the retry's dict has
  "comments" the batch is accepted, else the file is given up on. -/
def reviewFile (mt : Nat) (gpt : Nat → String → GptDict) (n : Nat)
    (f : ChangedFile) : ReviewResult × Nat :=
  match f.patch with
  | none => (.skippedEmpty, 0)
  | some p =>
    if p.length > mt then (.skippedTooLarge, 0)
    else
      match getComments (gpt n (gptPrompt f.filename p)) with
      | some cs => (.accepted cs, 1)
      | none =>
        match getComments (gpt (n + 1) (gptPrompt f.filename p)) with
        | some cs => (.accepted cs, 2)
        | none => (.failedAfterRetry, 2)

/-- Contribution of a file's outcome to the comments accumulator of
do_code_review: comments.append(json.dumps(diff_comment["comments"])) happens
exactly on the accepted branches. -/
def resultBatches : ReviewResult → List (List Comment)
  | .accepted cs => [cs]
  | _ => []

/-- Contribution of a file's outcome to skipped_files:
skipped_files.append(item.filename) happens on the too-large branch and on the
second-failure branch, and on no other branch (in particular not for an
absent patch, which is only logged). -/
def resultSkips (filename : String) : ReviewResult → List String
  | .skippedTooLarge => [filename]
  | .failedAfterRetry => [filename]
  | _ => []

/-- The full loop of do_code_review over the changed files, threading the
submit_to_gpt call counter, and accumulating the comments batches and
skipped_files in file-processing order. -/
def reviewLoop (mt : Nat) (gpt : Nat → String → GptDict) :
    List ChangedFile → Nat → List (List Comment) × List String
  | [], _ => ([], [])
  | f :: fs, n =>
    let r := reviewFile mt gpt n f
    let rest := reviewLoop mt gpt fs (n + r.2)
    (resultBatches r.1 ++ rest.1, resultSkips f.filename r.1 ++ rest.2)

/-- The sequence of per-file outcomes of a run, paired with filenames:
one entry per changed file, in processing order. -/
def runOutcomes (mt : Nat) (gpt : Nat → String → GptDict) :
    List ChangedFile → Nat → List (String × ReviewResult)
  | [], _ => []
  | f :: fs, n =>
    let r := reviewFile mt gpt n f
    (f.filename, r.1) :: runOutcomes mt gpt fs (n + r.2)

/-- Python exceptions that can escape the modelled functions. -/
inductive PyError where
  | systemExit1
  | indexError
  | valueError
deriving DecidableEq

/-- The environment variables the program reads. none models an unset
variable; some s a variable set to the string s (possibly empty). -/
structure Env where
  OPENAI_API_KEY : Option String
  GITHUB_TOKEN : Option String
  GITHUB_REF : Option String
  GITHUB_REPOSITORY : Option String

/-- Python truthiness of os.getenv(X): falsy when the variable is unset
(None) or set to the empty string. Every guard in the source is written
if not os.getenv(X). -/
def envFalsy : Option String → Bool
  | none => true
  | some s => s == ""

/-- set_openai_key (src/main.py lines 25-32): SystemExit(1) when
OPENAI_API_KEY is falsy; otherwise assigns the module-global key (no network
call) and returns. -/
def set_openai_key (e : Env) : Except PyError Unit :=
  if envFalsy e.OPENAI_API_KEY then .error .systemExit1 else .ok ()

/-- get_github_session (src/main.py lines 15-22): SystemExit(1) when
GITHUB_TOKEN is falsy; otherwise constructs the client object (no network
call) and returns. -/
def get_github_session (e : Env) : Except PyError Unit :=
  if envFalsy e.GITHUB_TOKEN then .error .systemExit1 else .ok ()

/-- Python str.split with a one-character separator, on a character list:
"a/b".split("/") = ["a","b"], "".split("/") = [""]. -/
def splitCharsOn (sep : Char) : List Char → List (List Char)
  | [] => [[]]
  | c :: cs =>
    let r := splitCharsOn sep cs
    if c == sep then [] :: r
    else
      match r with
      | [] => [[c]]
      | g :: gs => (c :: g) :: gs

/-- Python str.split with a one-character separator, on strings. -/
def pySplit (s : String) (sep : Char) : List String :=
  (splitCharsOn sep s.toList).map (fun l => String.mk l)

/-- The ASCII characters stripped by Python int() around the literal
(Py_UNICODE_ISSPACE restricted to ASCII): TAB through CR (0x09-0x0D),
FS through US (0x1C-0x1F) and the space. -/
def isPySpace (c : Char) : Bool :=
  c == ' ' || (9 ≤ c.toNat && c.toNat ≤ 13) || (28 ≤ c.toNat && c.toNat ≤ 31)

/-- ASCII decimal digit test. -/
def isDigitChar (c : Char) : Bool :=
  48 ≤ c.toNat && c.toNat ≤ 57

/-- Value of a list of decimal digits. -/
def digitsToNat (l : List Char) : Nat :=
  l.foldl (fun a c => 10 * a + (c.toNat - 48)) 0

/-- Continuation of the digit part of a Python int literal after its first
digit: digits, with single underscores allowed only between two digits
(PEP 515); a trailing or doubled underscore is rejected. -/
def pyDigitsAux : List Char → Bool
  | [] => true
  | c :: cs =>
    if isDigitChar c then pyDigitsAux cs
    else if c == '_' then
      match cs with
      | [] => false
      | d :: ds => isDigitChar d && pyDigitsAux ds
    else false

/-- The digit part of a Python int literal: non-empty, starts with a digit,
underscores only between digits. -/
def pyDigitsOk : List Char → Bool
  | [] => false
  | c :: cs => isDigitChar c && pyDigitsAux cs

/-- Python int(s) on a string: surrounding whitespace is stripped, an
optional single sign is accepted, then a non-empty run of decimal digits with
PEP 515 underscore grouping; anything else raises ValueError (modelled as
none). This is exact for ASCII strings; the non-ASCII decimal digits
(Unicode category Nd) and non-ASCII whitespace that CPython also accepts are
outside the model, so theorems apply pyInt? only to all-ASCII arguments. -/
def pyInt? (s : String) : Option Int :=
  match (((s.toList.dropWhile isPySpace).reverse.dropWhile isPySpace).reverse :
      List Char) with
  | [] => none
  | c :: cs =>
    let sd : Int × List Char :=
      if c == '-' then (-1, cs) else if c == '+' then (1, cs) else (1, c :: cs)
    if pyDigitsOk sd.2 then
      some (sd.1 * (digitsToNat (sd.2.filter (fun c2 => c2 != '_')) : Int))
    else none

/-- get_repo_and_pr (src/main.py lines 35-51): SystemExit(1) when GITHUB_REF
is falsy, then SystemExit(1) when GITHUB_REPOSITORY is falsy; otherwise
computes int(os.getenv("GITHUB_REF").split("/")[2]), which raises IndexError
when the split has fewer than three parts and ValueError when the third part
is not a decimal integer. -/
def get_repo_and_pr (e : Env) : Except PyError (String × Int) :=
  if envFalsy e.GITHUB_REF then .error .systemExit1
  else if envFalsy e.GITHUB_REPOSITORY then .error .systemExit1
  else
    match (pySplit (e.GITHUB_REF.getD "") '/')[2]? with
    | none => .error .indexError
    | some seg =>
      match pyInt? seg with
      | none => .error .valueError
      | some k => .ok (e.GITHUB_REPOSITORY.getD "", k)

/-- submit_review (src/main.py lines 108-132): SystemExit(1) when
GITHUB_TOKEN is falsy; then comments_object =
[comment for comment in ast.literal_eval(comments[0])], which raises
IndexError when the accumulated comments list is empty and otherwise
deserializes ONLY the first per-file batch; pr.create_review is called inside
a try block whose GithubException handler only logs, so the function returns
normally whether or not the platform accepts the review. The value returned
here is the comments_object passed to pr.create_review. -/
def submit_review (e : Env) (comments : List (List Comment))
    (skipped_files : List String) : Except PyError (List Comment) :=
  if envFalsy e.GITHUB_TOKEN then .error .systemExit1
  else
    match comments with
    | [] => .error .indexError
    | b :: _ => let _ := skipped_files; .ok b

/-- do_code_review (src/main.py lines 54-105): runs the per-file loop from a
fresh call counter, then calls submit_review on the accumulated comments and
skipped_files. Returns the submitted comments_object together with
skipped_files, or the escaping exception. -/
def do_code_review (e : Env) (mt : Nat) (gpt : Nat → String → GptDict)
    (files : List ChangedFile) : Except PyError (List Comment × List String) :=
  let r := reviewLoop mt gpt files 0
  match submit_review e r.1 r.2 with
  | .error err => .error err
  | .ok cs => .ok (cs, r.2)

/-- main (src/main.py lines 158-162): set_openai_key, then
get_github_session, then get_repo_and_pr, then do_code_review; each
SystemExit propagates and stops the sequence, so the review phase (the only
part that makes hosting-platform or completion-API calls) runs only when all
three startup steps succeed. -/
def main (e : Env) (mt : Nat) (gpt : Nat → String → GptDict)
    (files : List ChangedFile) : Except PyError (List Comment × List String) :=
  match set_openai_key e with
  | .error err => .error err
  | .ok _ =>
    match get_github_session e with
    | .error err => .error err
    | .ok _ =>
      match get_repo_and_pr e with
      | .error err => .error err
      | .ok _ => do_code_review e mt gpt files

deriving instance DecidableEq for Except

/-! ## General lemmas about the per-file loop -/

/-- Each changed file contributes exactly one batch or one skip entry when its
patch is present, and neither when it is absent. -/
theorem reviewFile_contrib (mt : Nat) (gpt : Nat → String → GptDict) (n : Nat)
    (f : ChangedFile) :
    (resultBatches (reviewFile mt gpt n f).1).length
      + (resultSkips f.filename (reviewFile mt gpt n f).1).length
      = if f.patch.isSome then 1 else 0 := by
  rcases f with ⟨fn, pp⟩
  cases pp with
  | none => simp [reviewFile, resultBatches, resultSkips]
  | some p =>
    simp only [reviewFile, Option.isSome_some, if_true]
    by_cases h : p.length > mt
    · simp [h, resultBatches, resultSkips]
    · rw [if_neg h]
      cases h1 : getComments (gpt n (gptPrompt fn p)) with
      | some cs => simp [resultBatches, resultSkips]
      | none =>
        cases h2 : getComments (gpt (n + 1) (gptPrompt fn p)) with
        | some cs => simp [resultBatches, resultSkips]
        | none => simp [resultBatches, resultSkips]

/-- The loop's two accumulators are the flattened projections of the per-file
outcome sequence. -/
theorem reviewLoop_eq_outcomes (mt : Nat) (gpt : Nat → String → GptDict)
    (files : List ChangedFile) (n : Nat) :
    reviewLoop mt gpt files n
      = (((runOutcomes mt gpt files n).map (fun o => resultBatches o.2)).flatten,
         ((runOutcomes mt gpt files n).map (fun o => resultSkips o.1 o.2)).flatten) := by
  induction files generalizing n with
  | nil => rfl
  | cons f fs ih => simp [reviewLoop, runOutcomes, ih]

/-- One outcome per changed file. -/
theorem runOutcomes_length (mt : Nat) (gpt : Nat → String → GptDict)
    (files : List ChangedFile) (n : Nat) :
    (runOutcomes mt gpt files n).length = files.length := by
  induction files generalizing n with
  | nil => rfl
  | cons f fs ih => simp [runOutcomes, ih]

/-- Counting form of the partition: the number of accepted batches plus the
number of skip entries equals the number of changed files whose patch is
present. -/
theorem reviewLoop_count (mt : Nat) (gpt : Nat → String → GptDict)
    (files : List ChangedFile) (n : Nat) :
    (reviewLoop mt gpt files n).1.length + (reviewLoop mt gpt files n).2.length
      = (files.filter fun f => f.patch.isSome).length := by
  induction files generalizing n with
  | nil => rfl
  | cons f fs ih =>
    have hc := reviewFile_contrib mt gpt n f
    have hr := ih (n + (reviewFile mt gpt n f).2)
    simp only [reviewLoop, List.length_append, List.filter_cons]
    by_cases hpp : f.patch.isSome
    · rw [if_pos hpp] at hc
      rw [if_pos hpp]
      simp only [List.length_cons]
      omega
    · rw [if_neg hpp] at hc
      rw [if_neg hpp]
      omega

/-- A single outcome never contributes both a batch and a skip entry. -/
theorem result_contrib_disjoint (fn : String) (r : ReviewResult) :
    resultBatches r = [] ∨ resultSkips fn r = [] := by
  cases r
  · exact Or.inr rfl
  · exact Or.inl rfl
  · exact Or.inl rfl
  · exact Or.inl rfl

/-! ## Claim theorems -/

/-- Claim C2, counterexample. In the spec's three-file scenario — a.py small
and successful, b.py patch absent, c.py over-size (limit 5, patch length 6) —
the run's skip list is ["c.py"] alone: b.py, whose patch is absent, is NOT in
the skip list, contrary to the claim that a file whose patch is absent
appears in it (the source only logs a warning for such files, without
appending to skipped_files). -/
theorem c2_counterexample :
    (reviewLoop 5 (fun _ _ => GptDict.withComments [⟨"a.py", "nit", 1⟩])
        [⟨"a.py", some "dA"⟩, ⟨"b.py", none⟩, ⟨"c.py", some "123456"⟩] 0).2 = ["c.py"]
  ∧ "b.py" ∉ (reviewLoop 5 (fun _ _ => GptDict.withComments [⟨"a.py", "nit", 1⟩])
        [⟨"a.py", some "dA"⟩, ⟨"b.py", none⟩, ⟨"c.py", some "123456"⟩] 0).2
  ∧ (reviewLoop 5 (fun _ _ => GptDict.withComments [⟨"a.py", "nit", 1⟩])
        [⟨"a.py", some "dA"⟩, ⟨"b.py", none⟩, ⟨"c.py", some "123456"⟩] 0).1
      = [[⟨"a.py", "nit", 1⟩]] :=
  ⟨rfl, by decide, rfl⟩

/-- Claim C2 (amended): every changed file yields exactly one outcome, and
the accumulated comment batches and skip-list entries are exactly the
projections of that outcome sequence, with no outcome contributing to both;
the batches and skip entries together count exactly the changed files whose
patch is PRESENT — a file with an absent patch contributes to neither list
(it is only logged). -/
theorem c2_amended_partition (mt : Nat) (gpt : Nat → String → GptDict)
    (files : List ChangedFile) :
    (runOutcomes mt gpt files 0).length = files.length
  ∧ (reviewLoop mt gpt files 0).1
      = ((runOutcomes mt gpt files 0).map (fun o => resultBatches o.2)).flatten
  ∧ (reviewLoop mt gpt files 0).2
      = ((runOutcomes mt gpt files 0).map (fun o => resultSkips o.1 o.2)).flatten
  ∧ (reviewLoop mt gpt files 0).1.length + (reviewLoop mt gpt files 0).2.length
      = (files.filter fun f => f.patch.isSome).length
  ∧ ∀ (fn : String) (r : ReviewResult), resultBatches r = [] ∨ resultSkips fn r = [] :=
  ⟨runOutcomes_length mt gpt files 0,
   by rw [reviewLoop_eq_outcomes],
   by rw [reviewLoop_eq_outcomes],
   reviewLoop_count mt gpt files 0,
   result_contrib_disjoint⟩

/-- Claim C4: for a reviewable file whose Requester result lacks a comments
key on both attempts, the oracle is consulted exactly twice (call counter
advances by 2, from n to n + 2 — not 1, not 3), the filename is appended to
the skip list, and the loop continues with the remaining files. -/
theorem c4_fail_twice (mt : Nat) (gpt : Nat → String → GptDict) (n : Nat)
    (f : ChangedFile) (fs : List ChangedFile) (p : String)
    (hp : f.patch = some p) (hlen : p.length ≤ mt)
    (h1 : getComments (gpt n (gptPrompt f.filename p)) = none)
    (h2 : getComments (gpt (n + 1) (gptPrompt f.filename p)) = none) :
    reviewFile mt gpt n f = (.failedAfterRetry, 2)
  ∧ reviewLoop mt gpt (f :: fs) n
      = ((reviewLoop mt gpt fs (n + 2)).1,
         f.filename :: (reviewLoop mt gpt fs (n + 2)).2) := by
  have hnl : ¬ p.length > mt := Nat.not_lt.mpr hlen
  have hr : reviewFile mt gpt n f = (.failedAfterRetry, 2) := by
    rcases f with ⟨fn, pp⟩
    cases hp
    simp only [reviewFile] at h1 h2 ⊢
    rw [if_neg hnl, h1, h2]
  refine ⟨hr, ?_⟩
  simp only [reviewLoop, hr, resultBatches, resultSkips]
  simp

/-- Claim C4, witness: a file with a small present patch and an oracle that
never produces a comments key. -/
theorem c4_fail_twice_witness :
    ((⟨"f.py", some "dd"⟩ : ChangedFile).patch = some "dd")
  ∧ "dd".length ≤ 10
  ∧ (reviewFile 10 (fun _ _ => GptDict.empty) 0 ⟨"f.py", some "dd"⟩
       = (.failedAfterRetry, 2)
     ∧ reviewLoop 10 (fun _ _ => GptDict.empty) [⟨"f.py", some "dd"⟩] 0
         = ((reviewLoop 10 (fun _ _ => GptDict.empty) [] 2).1,
            "f.py" :: (reviewLoop 10 (fun _ _ => GptDict.empty) [] 2).2)) :=
  ⟨rfl, by decide,
   c4_fail_twice 10 (fun _ _ => GptDict.empty) 0 ⟨"f.py", some "dd"⟩ [] "dd"
     rfl (by decide) rfl rfl⟩

/-- Claim C5: for a reviewable file whose Requester result lacks a comments
key on the first attempt and carries one on the second, the oracle is
consulted exactly twice, the second attempt's batch is appended to the
accumulated comments, and the file contributes no skip entry. -/
theorem c5_fail_then_succeed (mt : Nat) (gpt : Nat → String → GptDict) (n : Nat)
    (f : ChangedFile) (fs : List ChangedFile) (p : String) (cs : List Comment)
    (hp : f.patch = some p) (hlen : p.length ≤ mt)
    (h1 : getComments (gpt n (gptPrompt f.filename p)) = none)
    (h2 : getComments (gpt (n + 1) (gptPrompt f.filename p)) = some cs) :
    reviewFile mt gpt n f = (.accepted cs, 2)
  ∧ reviewLoop mt gpt (f :: fs) n
      = (cs :: (reviewLoop mt gpt fs (n + 2)).1, (reviewLoop mt gpt fs (n + 2)).2)
  ∧ resultSkips f.filename (reviewFile mt gpt n f).1 = [] := by
  have hnl : ¬ p.length > mt := Nat.not_lt.mpr hlen
  have hr : reviewFile mt gpt n f = (.accepted cs, 2) := by
    rcases f with ⟨fn, pp⟩
    cases hp
    simp only [reviewFile] at h1 h2 ⊢
    rw [if_neg hnl, h1, h2]
  refine ⟨hr, ?_, by rw [hr]; rfl⟩
  simp only [reviewLoop, hr, resultBatches, resultSkips]
  simp

/-- Claim C5, witness: an oracle failing on call 0 and succeeding on call 1. -/
theorem c5_fail_then_succeed_witness :
    ((⟨"a.py", some "dd"⟩ : ChangedFile).patch = some "dd")
  ∧ "dd".length ≤ 10
  ∧ (reviewFile 10
       (fun k _ => if k = 0 then GptDict.empty else GptDict.withComments [⟨"a.py", "nit", 1⟩])
       0 ⟨"a.py", some "dd"⟩ = (.accepted [⟨"a.py", "nit", 1⟩], 2)
     ∧ reviewLoop 10
         (fun k _ => if k = 0 then GptDict.empty else GptDict.withComments [⟨"a.py", "nit", 1⟩])
         [⟨"a.py", some "dd"⟩] 0
         = ([⟨"a.py", "nit", 1⟩] ::
              (reviewLoop 10
                (fun k _ => if k = 0 then GptDict.empty else GptDict.withComments [⟨"a.py", "nit", 1⟩])
                [] 2).1,
            (reviewLoop 10
              (fun k _ => if k = 0 then GptDict.empty else GptDict.withComments [⟨"a.py", "nit", 1⟩])
              [] 2).2)
     ∧ resultSkips "a.py"
         (reviewFile 10
           (fun k _ => if k = 0 then GptDict.empty else GptDict.withComments [⟨"a.py", "nit", 1⟩])
           0 ⟨"a.py", some "dd"⟩).1 = []) :=
  ⟨rfl, by decide,
   c5_fail_then_succeed 10
     (fun k _ => if k = 0 then GptDict.empty else GptDict.withComments [⟨"a.py", "nit", 1⟩])
     0 ⟨"a.py", some "dd"⟩ [] "dd" [⟨"a.py", "nit", 1⟩] rfl (by decide) rfl rfl⟩

/-- Claim C7: a changed file whose patch is absent is classified SkippedEmpty
by the filtering branches, makes zero completion-API calls, and leaves both
accumulators and the call counter unchanged (the loop proceeds to the rest of
the files as if the file were not there, apart from the logged warning). -/
theorem c7_empty_patch (mt : Nat) (gpt : Nat → String → GptDict) (n : Nat)
    (f : ChangedFile) (fs : List ChangedFile) (hp : f.patch = none) :
    diffFilter mt f = .SkippedEmpty
  ∧ reviewFile mt gpt n f = (.skippedEmpty, 0)
  ∧ reviewLoop mt gpt (f :: fs) n = reviewLoop mt gpt fs n := by
  rcases f with ⟨fn, pp⟩
  cases hp
  refine ⟨rfl, rfl, ?_⟩
  simp [reviewLoop, reviewFile, resultBatches, resultSkips]

/-- Claim C7, witness: a binary-style file with no patch. -/
theorem c7_empty_patch_witness :
    ((⟨"b.bin", none⟩ : ChangedFile).patch = none)
  ∧ (diffFilter 10 ⟨"b.bin", none⟩ = .SkippedEmpty
     ∧ reviewFile 10 (fun _ _ => GptDict.empty) 0 ⟨"b.bin", none⟩ = (.skippedEmpty, 0)
     ∧ reviewLoop 10 (fun _ _ => GptDict.empty) [⟨"b.bin", none⟩, ⟨"a.py", some "d"⟩] 0
         = reviewLoop 10 (fun _ _ => GptDict.empty) [⟨"a.py", some "d"⟩] 0) :=
  ⟨rfl,
   c7_empty_patch 10 (fun _ _ => GptDict.empty) 0 ⟨"b.bin", none⟩
     [⟨"a.py", some "d"⟩] rfl⟩

/-- Helper for C6: a changed file with an over-size patch puts its filename
into the skip list of any run that contains it, wherever it occurs. -/
theorem skip_mem_of_large (mt : Nat) (gpt : Nat → String → GptDict)
    (f : ChangedFile) (p : String) (hp : f.patch = some p) (hlen : mt < p.length) :
    ∀ (files : List ChangedFile) (n : Nat), f ∈ files →
      f.filename ∈ (reviewLoop mt gpt files n).2 := by
  intro files
  induction files with
  | nil => intro n h; cases h
  | cons g gs ih =>
    intro n hmem
    rcases List.mem_cons.mp hmem with h | h
    · subst h
      rcases f with ⟨fn, pp⟩
      cases hp
      simp only [reviewLoop, reviewFile, if_pos hlen, resultSkips]
      exact List.mem_cons_self _ _
    · simp only [reviewLoop]
      exact List.mem_append_right _ (ih _ h)

/-- Claim C6: for a changed file whose patch is present, the filter classifies
it Reviewable — equivalently the Requester oracle is consulted at least once —
if and only if the patch length is at most the configured maximum mt; when the
length strictly exceeds mt the file is classified too-large with zero
completion-API calls, and its filename lands in the skip list of every run
containing it. -/
theorem c6_size_filter (mt : Nat) (gpt : Nat → String → GptDict) (n : Nat)
    (f : ChangedFile) (p : String) (hp : f.patch = some p) :
    (diffFilter mt f = .Reviewable ↔ p.length ≤ mt)
  ∧ ((reviewFile mt gpt n f).2 ≠ 0 ↔ p.length ≤ mt)
  ∧ (mt < p.length → reviewFile mt gpt n f = (.skippedTooLarge, 0))
  ∧ (mt < p.length → ∀ (files : List ChangedFile) (n2 : Nat), f ∈ files →
       f.filename ∈ (reviewLoop mt gpt files n2).2) := by
  obtain ⟨fn, pp⟩ := f
  cases hp
  by_cases h : p.length > mt
  · refine ⟨?_, ?_, fun _ => ?_, fun _ => ?_⟩
    · simp [diffFilter, if_pos h]
      omega
    · simp [reviewFile, if_pos h]
      omega
    · simp [reviewFile, if_pos h]
    · exact skip_mem_of_large mt gpt ⟨fn, some p⟩ p rfl h
  · have hle : p.length ≤ mt := Nat.not_lt.mp h
    refine ⟨?_, ?_, fun hcon => absurd hcon h, fun hcon => absurd hcon h⟩
    · simp [diffFilter, if_neg h, hle]
    · simp only [reviewFile, if_neg h]
      cases h1 : getComments (gpt n (gptPrompt fn p)) with
      | some cs => simpa using hle
      | none =>
        cases h2 : getComments (gpt (n + 1) (gptPrompt fn p)) with
        | some cs => simpa using hle
        | none => simpa using hle

/-- Claim C6, witness: limit 5, patch of length 6: too-large, no call, and
the filename reaches the skip list of a run containing the file. -/
theorem c6_size_filter_witness :
    ((⟨"c.py", some "123456"⟩ : ChangedFile).patch = some "123456")
  ∧ (5 < "123456".length)
  ∧ reviewFile 5 (fun _ _ => GptDict.empty) 0 ⟨"c.py", some "123456"⟩
      = (.skippedTooLarge, 0)
  ∧ "c.py" ∈ (reviewLoop 5 (fun _ _ => GptDict.empty)
      [⟨"a.py", some "d"⟩, ⟨"c.py", some "123456"⟩] 0).2
  ∧ (diffFilter 5 ⟨"c.py", some "123456"⟩ = .Reviewable ↔ "123456".length ≤ 5) :=
  ⟨rfl, by decide,
   (c6_size_filter 5 (fun _ _ => GptDict.empty) 0 ⟨"c.py", some "123456"⟩
      "123456" rfl).2.2.1 (by decide),
   (c6_size_filter 5 (fun _ _ => GptDict.empty) 0 ⟨"c.py", some "123456"⟩
      "123456" rfl).2.2.2 (by decide)
      [⟨"a.py", some "d"⟩, ⟨"c.py", some "123456"⟩] 0 (by decide),
   (c6_size_filter 5 (fun _ _ => GptDict.empty) 0 ⟨"c.py", some "123456"⟩
      "123456" rfl).1⟩

/-- Claim C8: when any of the four required environment variables is unset,
main stops with SystemExit(1) during the startup sequence; the Except error
short-circuits the chain in main, so do_code_review — the only part of the
program that talks to the hosting platform or the completion API — is never
entered. -/
theorem c8_missing_env (e : Env) (mt : Nat) (gpt : Nat → String → GptDict)
    (files : List ChangedFile)
    (h : e.OPENAI_API_KEY = none ∨ e.GITHUB_TOKEN = none ∨ e.GITHUB_REF = none
         ∨ e.GITHUB_REPOSITORY = none) :
    main e mt gpt files = .error .systemExit1 := by
  by_cases h1 : envFalsy e.OPENAI_API_KEY = true
  · simp [main, set_openai_key, h1]
  · by_cases h2 : envFalsy e.GITHUB_TOKEN = true
    · simp [main, set_openai_key, get_github_session, h1, h2]
    · by_cases h3 : envFalsy e.GITHUB_REF = true
      · simp [main, set_openai_key, get_github_session, get_repo_and_pr, h1, h2, h3]
      · rcases h with h | h | h | h
        · exact absurd (by simp [h, envFalsy]) h1
        · exact absurd (by simp [h, envFalsy]) h2
        · exact absurd (by simp [h, envFalsy]) h3
        · have g1 : envFalsy e.OPENAI_API_KEY = false := by simpa using h1
          have g2 : envFalsy e.GITHUB_TOKEN = false := by simpa using h2
          have g3 : envFalsy e.GITHUB_REF = false := by simpa using h3
          have g4 : envFalsy e.GITHUB_REPOSITORY = true := by simp [h, envFalsy]
          simp [main, set_openai_key, get_github_session, get_repo_and_pr,
            g1, g2, g3, g4]

/-- Claim C8, witness: OPENAI_API_KEY unset, everything else present. -/
theorem c8_missing_env_witness :
    ((⟨none, some "t", some "refs/pull/1/merge", some "o/r"⟩ : Env).OPENAI_API_KEY = none
     ∨ (⟨none, some "t", some "refs/pull/1/merge", some "o/r"⟩ : Env).GITHUB_TOKEN = none
     ∨ (⟨none, some "t", some "refs/pull/1/merge", some "o/r"⟩ : Env).GITHUB_REF = none
     ∨ (⟨none, some "t", some "refs/pull/1/merge", some "o/r"⟩ : Env).GITHUB_REPOSITORY = none)
  ∧ main ⟨none, some "t", some "refs/pull/1/merge", some "o/r"⟩ 10
      (fun _ _ => GptDict.empty) [⟨"a.py", some "d"⟩] = .error .systemExit1 :=
  ⟨Or.inl rfl,
   c8_missing_env ⟨none, some "t", some "refs/pull/1/merge", some "o/r"⟩ 10
     (fun _ _ => GptDict.empty) [⟨"a.py", some "d"⟩] (Or.inl rfl)⟩

/-- Claim C9: whether the completion call raises openai.APIError or the
returned content fails to parse as JSON, submit_to_gpt returns normally with
the empty dict — which has no comments key — so the two failure modes are
indistinguishable to the Aggregator and both take the same retry path. -/
theorem c9_failures_collapse (json_loads : String → Option GptDict) (s : String)
    (h : json_loads s = none) :
    submit_to_gpt json_loads .apiError = .empty
  ∧ submit_to_gpt json_loads (.content s) = .empty
  ∧ submit_to_gpt json_loads .apiError = submit_to_gpt json_loads (.content s)
  ∧ getComments (submit_to_gpt json_loads (.content s)) = none := by
  refine ⟨rfl, ?_, ?_, ?_⟩ <;> simp [submit_to_gpt, h, getComments]

/-- Claim C9, witness: a parser on which the content "not json" fails. -/
theorem c9_failures_collapse_witness :
    ((fun _ : String => (none : Option GptDict)) "not json" = none)
  ∧ (submit_to_gpt (fun _ => none) .apiError = .empty
     ∧ submit_to_gpt (fun _ => none) (.content "not json") = .empty
     ∧ submit_to_gpt (fun _ => none) .apiError
         = submit_to_gpt (fun _ => none) (.content "not json")
     ∧ getComments (submit_to_gpt (fun _ => none) (.content "not json")) = none) :=
  ⟨rfl, c9_failures_collapse (fun _ => none) "not json" rfl⟩

/-- Claim C1 (code bug): with two reviewable files both succeeding on the
first attempt, the loop accumulates two per-file batches, but submit_review
deserializes only comments[0]: the comments_object handed to
pr.create_review is the FIRST file's batch alone, not the flattening of all
accumulated batches, which here differs from it. -/
theorem c1_code_behavior :
    (reviewLoop 1000
        (fun k _ => if k = 0 then GptDict.withComments [⟨"a.py", "nit", 1⟩]
                    else GptDict.withComments [⟨"b.py", "meh", 2⟩])
        [⟨"a.py", some "da"⟩, ⟨"b.py", some "db"⟩] 0).1
      = [[⟨"a.py", "nit", 1⟩], [⟨"b.py", "meh", 2⟩]]
  ∧ do_code_review ⟨some "k", some "t", some "refs/pull/1/merge", some "o/r"⟩ 1000
      (fun k _ => if k = 0 then GptDict.withComments [⟨"a.py", "nit", 1⟩]
                  else GptDict.withComments [⟨"b.py", "meh", 2⟩])
      [⟨"a.py", some "da"⟩, ⟨"b.py", some "db"⟩]
      = .ok ([⟨"a.py", "nit", 1⟩], [])
  ∧ ([[(⟨"a.py", "nit", 1⟩ : Comment)], [⟨"b.py", "meh", 2⟩]].flatten
      = [(⟨"a.py", "nit", 1⟩ : Comment), ⟨"b.py", "meh", 2⟩])
  ∧ ([(⟨"a.py", "nit", 1⟩ : Comment)]
      ≠ [(⟨"a.py", "nit", 1⟩ : Comment), ⟨"b.py", "meh", 2⟩]) :=
  ⟨rfl, rfl, rfl, by decide⟩

/-- Claim C3 (code bug): a run whose single file gets a non-JSON completion
on both attempts does record the file as skipped, but then the comments
accumulator is empty and submit_review's comments[0] raises an IndexError
that escapes do_code_review, so the process does not complete normally. -/
theorem c3_code_behavior :
    (reviewLoop 1000 (fun _ _ => submit_to_gpt (fun _ => none) (.content "not json"))
        [⟨"x.py", some "diff"⟩] 0).2 = ["x.py"]
  ∧ (reviewLoop 1000 (fun _ _ => submit_to_gpt (fun _ => none) (.content "not json"))
        [⟨"x.py", some "diff"⟩] 0).1 = []
  ∧ do_code_review ⟨some "k", some "t", some "refs/pull/1/merge", some "o/r"⟩ 1000
      (fun _ _ => submit_to_gpt (fun _ => none) (.content "not json"))
      [⟨"x.py", some "diff"⟩] = .error .indexError :=
  ⟨rfl, rfl, rfl⟩

end Salacious
